import Mathlib

/-!
Verification of the procedure-explorer core of the repository
(frontend component `src/components/procedures/procedure-explorer.tsx`).

The component is a client-side session manager: it loads a catalog of
remote stored procedures, caches per-procedure parameter schemas,
preserves per-procedure input drafts across navigation, validates
required parameters, and orchestrates execution requests.

We embed the component state as an explicit record, the remote service
as an oracle of responses, and each handler as a pure function from
state to state together with the list of network requests it issues.
-/

/-- Values of a JavaScript record entry: the source distinguishes
`undefined`, `null` and string values when filtering and validating. -/
inductive JStr where
  | undef : JStr
  | null : JStr
  | str : String → JStr
deriving DecidableEq, Repr

/-- True exactly when the source treats the value as absent:
`value === undefined || value === null || value === ""`. -/
def JStr.isEmptyish : JStr → Bool
  | .undef => true
  | .null => true
  | .str s => s == ""

structure ProcedureSummary where
  schema : String
  name : String
  has_parameters : Bool
  created_at : Option String
  updated_at : Option String
  definition_snippet : Option String
deriving DecidableEq, Repr

structure ProcedureParameter where
  name : String
  short_name : String
  data_type : Option String
  max_length : Option Int
  numeric_precision : Option Int
  numeric_scale : Option Int
  mode : Option String
  is_result : Bool
  is_required : Bool
deriving DecidableEq, Repr

structure ProcedureDetails where
  schema : String
  name : String
  definition : String
  parameters : List ProcedureParameter
deriving DecidableEq, Repr

/-- Untyped scalar cell of a result row. -/
inductive Scalar where
  | null : Scalar
  | str : String → Scalar
  | num : Int → Scalar
  | bool : Bool → Scalar
deriving DecidableEq, Repr

structure ProcedureExecutionResult where
  schema : String
  name : String
  columns : List String
  data : List (List (String × Scalar))
  row_count : Option Int
  duration_ms : Nat
  parameters_used : List (String × JStr)
deriving DecidableEq, Repr

/-- `makeKey` from the source: the identity token `schema ++ "." ++ name`. -/
def makeKey (schema name : String) : String := schema ++ "." ++ name

/-- The synthetic quick-start catalog entry (`QUICK_START_PROCEDURE`). -/
def QUICK_START_PROCEDURE : ProcedureSummary :=
  { schema := "sys"
    name := "sp_help"
    has_parameters := false
    created_at := none
    updated_at := none
    definition_snippet :=
      some "Returns metadata about database objects in the current database." }

def QUICK_START_KEY : String :=
  makeKey QUICK_START_PROCEDURE.schema QUICK_START_PROCEDURE.name

/-- A parameter draft: a JavaScript record from parameter short-name to
the raw value typed so far, modelled as an entry list. -/
abbrev Draft := List (String × JStr)

/-- Per-entry action of a JavaScript record update: an entry under the
written key receives the new value, other entries are unchanged. -/
def replaceEntry {α : Type} (k : String) (v : α) (kv : String × α) :
    String × α :=
  bif kv.1 == k then (k, v) else kv

/-- JavaScript record update `\x7b...prev, [k]: v\x7d`: an existing key keeps
its position and receives the new value, a new key is appended at the end. -/
def upsert {α : Type} (l : List (String × α)) (k : String) (v : α) :
    List (String × α) :=
  if l.any (fun kv => kv.1 == k) then
    l.map (replaceEntry k v)
  else
    l ++ [(k, v)]

/-- The mutable state of the `ProcedureExplorer` component. -/
structure ExplorerState where
  searchTerm : String
  procedures : List ProcedureSummary
  isLoadingList : Bool
  listError : Option String
  selectedSummary : Option ProcedureSummary
  selectedKey : Option String
  detailsCache : List (String × ProcedureDetails)
  detailsLoading : Bool
  detailsError : Option String
  parameterValues : Draft
  parameterDrafts : List (String × Draft)
  isExecuting : Bool
  executionError : Option String
  executionResult : Option ProcedureExecutionResult
deriving DecidableEq, Repr

def initialState : ExplorerState :=
  { searchTerm := ""
    procedures := []
    isLoadingList := false
    listError := none
    selectedSummary := none
    selectedKey := none
    detailsCache := []
    detailsLoading := false
    detailsError := none
    parameterValues := []
    parameterDrafts := []
    isExecuting := false
    executionError := none
    executionResult := none }

/-- A network request issued by the component. -/
inductive Request where
  | listProcs : Request
  | detail : String → String → Request
  | execute : String → String → List (String × JStr) → Request
deriving DecidableEq, Repr

/-- The remote service, as the responses it would give to each request. -/
structure RemoteService where
  listResp : Except String (List ProcedureSummary)
  detailResp : String → String → Except String ProcedureDetails
  execResp : String → String → List (String × JStr) →
      Except String ProcedureExecutionResult

/-- `fetchProcedures`: loads the catalog, prepends the quick-start entry
and drops any server entry colliding with its key. -/
def fetchProcedures (env : RemoteService) (s : ExplorerState) :
    ExplorerState × List Request :=
  let s := { s with isLoadingList := true, listError := none }
  match env.listResp with
  | .ok fetched =>
      let withoutQuickStart :=
        fetched.filter (fun p => !(makeKey p.schema p.name == QUICK_START_KEY))
      ({ s with procedures := QUICK_START_PROCEDURE :: withoutQuickStart,
                isLoadingList := false },
       [Request.listProcs])
  | .error msg =>
      ({ s with listError := some msg, isLoadingList := false },
       [Request.listProcs])

/-- `fetchProcedureDetails`: fetches the detail for one summary; on success
stores it in the details cache under the summary key, on failure records
the error and stores nothing. Returns the parsed detail when successful. -/
def fetchProcedureDetails (env : RemoteService) (s : ExplorerState)
    (summary : ProcedureSummary) :
    ExplorerState × Option ProcedureDetails × List Request :=
  let key := makeKey summary.schema summary.name
  let s := { s with detailsLoading := true, detailsError := none }
  match env.detailResp summary.schema summary.name with
  | .ok parsed =>
      ({ s with detailsCache := upsert s.detailsCache key parsed,
                detailsLoading := false },
       some parsed, [Request.detail summary.schema summary.name])
  | .error msg =>
      ({ s with detailsError := some msg, detailsLoading := false },
       none, [Request.detail summary.schema summary.name])

/-- The draft-resolution `useEffect`: with no selection the active draft is
cleared; with a stored draft for the selected key it becomes active; else,
with a cached detail, a fresh all-empty draft over the declared parameter
short-names becomes active; else the active draft is empty. -/
def draftResolutionEffect (s : ExplorerState) : ExplorerState :=
  match s.selectedKey with
  | none => { s with parameterValues := [] }
  | some key =>
      match List.lookup key s.parameterDrafts with
      | some cachedDraft => { s with parameterValues := cachedDraft }
      | none =>
          match List.lookup key s.detailsCache with
          | none => { s with parameterValues := [] }
          | some details =>
              { s with parameterValues :=
                  details.parameters.map (fun p => (p.short_name, JStr.str "")) }

/-- JavaScript `toLowerCase()` over the character list (ASCII-faithful). -/
def strToLower (s : String) : String := String.mk (s.data.map Char.toLower)

/-- JavaScript `trim()`: strip leading and trailing whitespace. -/
def strTrim (s : String) : String :=
  String.mk
    (((s.data.dropWhile Char.isWhitespace).reverse.dropWhile
        Char.isWhitespace).reverse)

/-- The lowercased definition excerpt of a summary, or the empty string
when absent. -/
def snippetLower (p : ProcedureSummary) : String :=
  match p.definition_snippet with
  | some sn => strToLower sn
  | none => ""

/-- `filteredProcedures` search predicate over one summary, with the query
already trimmed and lowercased as in the source. -/
def summaryMatches (query : String) (p : ProcedureSummary) : Bool :=
  let identifier := strToLower (p.schema ++ "." ++ p.name)
  decide (query.toList <:+: identifier.toList) ||
    decide (query.toList <:+: (snippetLower p).toList)

/-- `filteredProcedures`: an empty trimmed query returns the catalog
unchanged; otherwise keeps the summaries matched by the lowercased
trimmed query. -/
def filteredProcedures (procedures : List ProcedureSummary)
    (searchTerm : String) : List ProcedureSummary :=
  let query := strToLower (strTrim searchTerm)
  if query == "" then procedures
  else procedures.filter (summaryMatches query)

/-- The filter applied to the parameter record before transmission:
entries whose value is undefined, null or the empty string are dropped. -/
def filterParameters (parameters : List (String × JStr)) :
    List (String × JStr) :=
  parameters.filter (fun kv => !kv.2.isEmptyish)

/-- `executeProcedure`: clears prior result and error, filters empty values
out of the parameter record, posts the execute request, and stores either
the result or the error message. -/
def executeProcedure (env : RemoteService) (s : ExplorerState)
    (summary : ProcedureSummary) (parameters : List (String × JStr)) :
    ExplorerState × List Request :=
  let s := { s with isExecuting := true, executionError := none,
                    executionResult := none }
  let filteredParameters := filterParameters parameters
  match env.execResp summary.schema summary.name filteredParameters with
  | .ok data =>
      ({ s with executionResult := some data, isExecuting := false },
       [Request.execute summary.schema summary.name filteredParameters])
  | .error msg =>
      ({ s with executionError := some msg, isExecuting := false },
       [Request.execute summary.schema summary.name filteredParameters])

/-- Step 1 of `handleSelect`: persist the outgoing draft under the
previously selected key, when a selection exists. -/
def persistOutgoingDraft (s : ExplorerState) : ExplorerState :=
  match s.selectedSummary, s.selectedKey with
  | some _, some k =>
      { s with parameterDrafts := upsert s.parameterDrafts k s.parameterValues }
  | _, _ => s

/-- Step 2 of `handleSelect`: point the selection at the new summary and
clear detail error, execution error and execution result. -/
def beginSelection (s : ExplorerState) (summary : ProcedureSummary) :
    ExplorerState :=
  { s with selectedSummary := some summary,
           selectedKey := some (makeKey summary.schema summary.name),
           detailsError := none,
           executionError := none,
           executionResult := none }

/-- Step 3 of `handleSelect`: read-through detail resolution — a cached
detail is returned with no network request, otherwise the detail is
fetched via `fetchProcedureDetails`. -/
def resolveDetails (env : RemoteService) (s : ExplorerState)
    (summary : ProcedureSummary) :
    ExplorerState × Option ProcedureDetails × List Request :=
  match List.lookup (makeKey summary.schema summary.name) s.detailsCache with
  | some d => (s, some d, [])
  | none => fetchProcedureDetails env s summary

/-- Step 5 of `handleSelect`: when `autoExecute` is set and the detail
resolved, execute immediately with an empty parameter record unless some
parameter is required. -/
def maybeAutoExecute (env : RemoteService) (s : ExplorerState)
    (summary : ProcedureSummary) (resolved : Option ProcedureDetails)
    (autoExecute : Bool) : ExplorerState × List Request :=
  match resolved with
  | none => (s, [])
  | some details =>
      if autoExecute then
        if details.parameters.any (fun p => p.is_required) then (s, [])
        else executeProcedure env s summary []
      else (s, [])

/-- `handleSelect`: persist the outgoing draft, switch the selection,
resolve the detail, re-run the draft-resolution effect, and optionally
auto-execute. -/
def handleSelect (env : RemoteService) (s : ExplorerState)
    (summary : ProcedureSummary) (autoExecute : Bool) :
    ExplorerState × List Request :=
  let s1 := beginSelection (persistOutgoingDraft s) summary
  let r := resolveDetails env s1 summary
  let s2 := draftResolutionEffect r.1
  let ex := maybeAutoExecute env s2 summary r.2.1 autoExecute
  (ex.1, r.2.2 ++ ex.2)

/-- `selectedDetails` (source line 375): the displayed detail is the cache
entry under the currently selected key. -/
def selectedDetails (s : ExplorerState) : Option ProcedureDetails :=
  match s.selectedKey with
  | some key => List.lookup key s.detailsCache
  | none => none

/-- `handleParameterChange`: record the newly typed value in the active
draft. -/
def handleParameterChange (s : ExplorerState) (name value : String) :
    ExplorerState :=
  { s with parameterValues := upsert s.parameterValues name (JStr.str value) }

/-- `handleResetParameters`: rewrite every declared parameter short-name of
the displayed detail to empty, or clear the active draft when none. -/
def handleResetParameters (s : ExplorerState) : ExplorerState :=
  match selectedDetails s with
  | none => { s with parameterValues := [] }
  | some details =>
      { s with parameterValues :=
          details.parameters.map (fun p => (p.short_name, JStr.str "")) }

/-- The validation message shown when a required parameter is missing. -/
def validationMessage : String :=
  "Please provide values for all required parameters before running this procedure."

/-- Whether a looked-up draft value counts as missing for validation:
an absent key, undefined, null, or the empty string. -/
def missingValue : Option JStr → Bool
  | none => true
  | some v => v.isEmptyish

/-- `handleExecute`: the form submit handler. Without a selection or a
displayed detail it does nothing; with some required parameter missing a
value it records the validation message, clears the displayed result and
issues no request; otherwise it delegates to `executeProcedure` with the
active draft. -/
def handleExecute (env : RemoteService) (s : ExplorerState) :
    ExplorerState × List Request :=
  match s.selectedSummary, selectedDetails s with
  | some summary, some details =>
      let hasMissingRequired := details.parameters.any (fun p =>
        p.is_required && missingValue (List.lookup p.short_name s.parameterValues))
      if hasMissingRequired then
        ({ s with executionError := some validationMessage,
                  executionResult := none }, [])
      else
        executeProcedure env s summary s.parameterValues
  | _, _ => (s, [])

/-- `handleQuickStart`: clear the search box and select the synthetic
sample with auto-execution. -/
def handleQuickStart (env : RemoteService) (s : ExplorerState) :
    ExplorerState × List Request :=
  handleSelect env { s with searchTerm := "" } QUICK_START_PROCEDURE true

/-- The parameter records carried by the execute requests of a trace. -/
def transmittedParameters (reqs : List Request) : List (String × JStr) :=
  List.foldr (fun r acc =>
    match r with
    | Request.execute _ _ ps => ps ++ acc
    | _ => acc) [] reqs

/-- Whether a request is an execute request. -/
def Request.isExec : Request → Bool
  | Request.execute _ _ _ => true
  | _ => false

/-! ### Concrete fixtures used by the closed witnesses -/

/-- An optional input parameter. -/
def paramCity : ProcedureParameter :=
  { name := "@City"
    short_name := "City"
    data_type := some "nvarchar"
    max_length := some 50
    numeric_precision := none
    numeric_scale := none
    mode := some "IN"
    is_result := false
    is_required := false }

/-- A required input parameter. -/
def paramId : ProcedureParameter :=
  { name := "@Id"
    short_name := "Id"
    data_type := some "int"
    max_length := none
    numeric_precision := some 10
    numeric_scale := some 0
    mode := some "IN"
    is_result := false
    is_required := true }

def sumA : ProcedureSummary :=
  { schema := "dbo"
    name := "ProcA"
    has_parameters := true
    created_at := none
    updated_at := none
    definition_snippet := some "selects rows by city" }

def sumB : ProcedureSummary :=
  { schema := "dbo"
    name := "ProcB"
    has_parameters := true
    created_at := none
    updated_at := none
    definition_snippet := none }

def detA : ProcedureDetails :=
  { schema := "dbo"
    name := "ProcA"
    definition := "CREATE PROCEDURE dbo.ProcA AS SELECT 1"
    parameters := [paramCity] }

def detB : ProcedureDetails :=
  { schema := "dbo"
    name := "ProcB"
    definition := "CREATE PROCEDURE dbo.ProcB AS SELECT 2"
    parameters := [paramId] }

/-- Quick-start detail: no parameters at all. -/
def detQuick : ProcedureDetails :=
  { schema := "sys"
    name := "sp_help"
    definition := ""
    parameters := [] }

/-- A fixed execution result echoing the transmitted parameters. -/
def resDemo (schema name : String) (ps : List (String × JStr)) :
    ProcedureExecutionResult :=
  { schema := schema
    name := name
    columns := ["x"]
    data := [[("x", Scalar.num 1)]]
    row_count := some 1
    duration_ms := 5
    parameters_used := ps }

/-- A remote service that answers every request successfully. -/
def envDemo : RemoteService :=
  { listResp := Except.ok [sumA, sumB]
    detailResp := fun sc nm =>
      if sc == "dbo" && nm == "ProcA" then Except.ok detA
      else if sc == "dbo" && nm == "ProcB" then Except.ok detB
      else if sc == "sys" && nm == "sp_help" then Except.ok detQuick
      else Except.error "unknown procedure"
    execResp := fun sc nm ps => Except.ok (resDemo sc nm ps) }

/-- A remote service whose detail and execute operations always fail. -/
def envDown : RemoteService :=
  { listResp := Except.error "list unavailable"
    detailResp := fun _ _ => Except.error "detail unavailable"
    execResp := fun _ _ _ => Except.error "execution unavailable" }

/-! ### Association-list lemmas for the JavaScript record update -/

theorem replaceEntry_hit {α : Type} (k : String) (v : α) (a : String) (b : α)
    (h : (a == k) = true) : replaceEntry k v (a, b) = (k, v) := by
  simp [replaceEntry, h]

theorem replaceEntry_miss {α : Type} (k : String) (v : α) (a : String) (b : α)
    (h : (a == k) = false) : replaceEntry k v (a, b) = (a, b) := by
  simp [replaceEntry, h]

theorem lookup_map_replace {α : Type} (l : List (String × α)) (k : String)
    (v : α) :
    List.lookup k (l.map (replaceEntry k v)) =
      if l.any (fun kv => kv.1 == k) then some v else none := by
  induction l with
  | nil => simp
  | cons hd tl ih =>
      obtain ⟨a, b⟩ := hd
      cases hkk : (a == k) with
      | true =>
          rw [List.map_cons, replaceEntry_hit k v a b hkk]
          simp [List.lookup_cons, hkk]
      | false =>
          have hke : (k == a) = false := by
            simp only [beq_eq_false_iff_ne, ne_eq] at hkk ⊢
            exact fun hh => hkk hh.symm
          rw [List.map_cons, replaceEntry_miss k v a b hkk]
          simp only [List.lookup_cons, hke, ih, List.any_cons, hkk,
            Bool.false_or]

theorem lookup_map_replace_ne {α : Type} (l : List (String × α))
    (k kq : String) (v : α) (h : kq ≠ k) :
    List.lookup kq (l.map (replaceEntry k v)) = List.lookup kq l := by
  induction l with
  | nil => simp
  | cons hd tl ih =>
      obtain ⟨a, b⟩ := hd
      cases hkk : (a == k) with
      | true =>
          have hak : a = k := by simpa using hkk
          have h1 : (kq == k) = false := by simpa [beq_eq_false_iff_ne]
          rw [List.map_cons, replaceEntry_hit k v a b hkk]
          simp [List.lookup_cons, hak, h1, ih]
      | false =>
          rw [List.map_cons, replaceEntry_miss k v a b hkk]
          simp only [List.lookup_cons]
          cases hq : (kq == a) <;> simp [ih]

theorem lookup_append_single_ne {α : Type} (l : List (String × α))
    (k kq : String) (v : α) (h : kq ≠ k) :
    List.lookup kq (l ++ [(k, v)]) = List.lookup kq l := by
  induction l with
  | nil =>
      have h1 : (kq == k) = false := by simpa [beq_eq_false_iff_ne]
      simp [List.lookup_cons, h1]
  | cons hd tl ih =>
      obtain ⟨a, b⟩ := hd
      simp only [List.cons_append, List.lookup_cons]
      cases hq : (kq == a) <;> simp [ih]

theorem lookup_append_single_self {α : Type} (l : List (String × α))
    (k : String) (v : α) (hnone : l.any (fun kv => kv.1 == k) = false) :
    List.lookup k (l ++ [(k, v)]) = some v := by
  induction l with
  | nil => simp [List.lookup_cons]
  | cons hd tl ih =>
      obtain ⟨a, b⟩ := hd
      rw [List.any_cons] at hnone
      have h1 : (a == k) = false := by
        cases hab : (a == k) with
        | true => rw [hab] at hnone; simp at hnone
        | false => rfl
      have htl : tl.any (fun kv => kv.1 == k) = false := by
        cases htl : tl.any (fun kv => kv.1 == k) with
        | true => rw [htl] at hnone; simp at hnone
        | false => rfl
      have hke : (k == a) = false := by
        simp only [beq_eq_false_iff_ne, ne_eq] at h1 ⊢
        exact fun hh => h1 hh.symm
      rw [List.cons_append, List.lookup_cons]
      simp only [hke]
      exact ih htl

theorem lookup_upsert_self {α : Type} (l : List (String × α)) (k : String)
    (v : α) : List.lookup k (upsert l k v) = some v := by
  unfold upsert
  cases ha : l.any (fun kv => kv.1 == k) with
  | true =>
      simpa [ha] using lookup_map_replace l k v
  | false =>
      simpa using lookup_append_single_self l k v ha

theorem lookup_upsert_ne {α : Type} (l : List (String × α)) (k kq : String)
    (v : α) (h : kq ≠ k) :
    List.lookup kq (upsert l k v) = List.lookup kq l := by
  unfold upsert
  cases ha : l.any (fun kv => kv.1 == k) with
  | true => simpa using lookup_map_replace_ne l k kq v h
  | false => simpa using lookup_append_single_ne l k kq v h

/-! ### Preservation lemmas for the operations -/

theorem fetchProcedureDetails_preserves (env : RemoteService)
    (s : ExplorerState) (t : ProcedureSummary) :
    (fetchProcedureDetails env s t).1.parameterDrafts = s.parameterDrafts ∧
    (fetchProcedureDetails env s t).1.parameterValues = s.parameterValues ∧
    (fetchProcedureDetails env s t).1.selectedKey = s.selectedKey ∧
    (fetchProcedureDetails env s t).1.selectedSummary = s.selectedSummary ∧
    (fetchProcedureDetails env s t).1.executionResult = s.executionResult ∧
    (fetchProcedureDetails env s t).1.executionError = s.executionError ∧
    (fetchProcedureDetails env s t).1.procedures = s.procedures := by
  unfold fetchProcedureDetails
  cases env.detailResp t.schema t.name <;> simp

theorem fetchProcedureDetails_ok (env : RemoteService) (s : ExplorerState)
    (t : ProcedureSummary) (d : ProcedureDetails)
    (h : env.detailResp t.schema t.name = .ok d) :
    (fetchProcedureDetails env s t).1.detailsCache =
        upsert s.detailsCache (makeKey t.schema t.name) d ∧
    (fetchProcedureDetails env s t).2.1 = some d ∧
    (fetchProcedureDetails env s t).2.2 = [Request.detail t.schema t.name] := by
  unfold fetchProcedureDetails
  rw [h]
  simp

theorem fetchProcedureDetails_err (env : RemoteService) (s : ExplorerState)
    (t : ProcedureSummary) (msg : String)
    (h : env.detailResp t.schema t.name = .error msg) :
    (fetchProcedureDetails env s t).1.detailsCache = s.detailsCache ∧
    (fetchProcedureDetails env s t).1.detailsError = some msg ∧
    (fetchProcedureDetails env s t).2.1 = none ∧
    (fetchProcedureDetails env s t).2.2 = [Request.detail t.schema t.name] := by
  unfold fetchProcedureDetails
  rw [h]
  simp

theorem resolveDetails_hit (env : RemoteService) (s : ExplorerState)
    (t : ProcedureSummary) (d : ProcedureDetails)
    (h : List.lookup (makeKey t.schema t.name) s.detailsCache = some d) :
    resolveDetails env s t = (s, some d, []) := by
  unfold resolveDetails
  rw [h]

theorem resolveDetails_miss (env : RemoteService) (s : ExplorerState)
    (t : ProcedureSummary)
    (h : List.lookup (makeKey t.schema t.name) s.detailsCache = none) :
    resolveDetails env s t = fetchProcedureDetails env s t := by
  unfold resolveDetails
  rw [h]

theorem resolveDetails_preserves (env : RemoteService) (s : ExplorerState)
    (t : ProcedureSummary) :
    (resolveDetails env s t).1.parameterDrafts = s.parameterDrafts ∧
    (resolveDetails env s t).1.parameterValues = s.parameterValues ∧
    (resolveDetails env s t).1.selectedKey = s.selectedKey ∧
    (resolveDetails env s t).1.selectedSummary = s.selectedSummary ∧
    (resolveDetails env s t).1.executionResult = s.executionResult ∧
    (resolveDetails env s t).1.executionError = s.executionError ∧
    (resolveDetails env s t).1.procedures = s.procedures := by
  unfold resolveDetails
  cases List.lookup (makeKey t.schema t.name) s.detailsCache with
  | some d => simp
  | none => exact fetchProcedureDetails_preserves env s t

theorem resolveDetails_cache_of_ok (env : RemoteService) (s : ExplorerState)
    (t : ProcedureSummary) (d : ProcedureDetails)
    (h : (resolveDetails env s t).2.1 = some d) :
    List.lookup (makeKey t.schema t.name)
      (resolveDetails env s t).1.detailsCache = some d := by
  cases hc : List.lookup (makeKey t.schema t.name) s.detailsCache with
  | some d0 =>
      rw [resolveDetails_hit env s t d0 hc] at h ⊢
      have hd0 : d0 = d := by simpa using h
      subst hd0
      simpa using hc
  | none =>
      rw [resolveDetails_miss env s t hc] at h ⊢
      cases hr : env.detailResp t.schema t.name with
      | ok parsed =>
          obtain ⟨hca, hdd, -⟩ := fetchProcedureDetails_ok env s t parsed hr
          rw [hdd] at h
          have hpd : parsed = d := by simpa using h
          rw [hca, lookup_upsert_self s.detailsCache (makeKey t.schema t.name) parsed]
          exact congrArg some hpd
      | error msg =>
          obtain ⟨-, -, hdd, -⟩ := fetchProcedureDetails_err env s t msg hr
          rw [hdd] at h
          simp at h

theorem resolveDetails_trace (env : RemoteService) (s : ExplorerState)
    (t : ProcedureSummary) :
    (resolveDetails env s t).2.2 = [] ∨
    (resolveDetails env s t).2.2 = [Request.detail t.schema t.name] := by
  unfold resolveDetails
  cases List.lookup (makeKey t.schema t.name) s.detailsCache with
  | some d => exact Or.inl rfl
  | none =>
      unfold fetchProcedureDetails
      cases env.detailResp t.schema t.name <;> simp

theorem executeProcedure_preserves (env : RemoteService) (s : ExplorerState)
    (t : ProcedureSummary) (ps : List (String × JStr)) :
    (executeProcedure env s t ps).1.parameterDrafts = s.parameterDrafts ∧
    (executeProcedure env s t ps).1.parameterValues = s.parameterValues ∧
    (executeProcedure env s t ps).1.selectedKey = s.selectedKey ∧
    (executeProcedure env s t ps).1.selectedSummary = s.selectedSummary ∧
    (executeProcedure env s t ps).1.detailsCache = s.detailsCache ∧
    (executeProcedure env s t ps).1.detailsError = s.detailsError ∧
    (executeProcedure env s t ps).1.procedures = s.procedures := by
  cases h : env.execResp t.schema t.name (filterParameters ps) <;>
    simp [executeProcedure, h]

theorem executeProcedure_trace (env : RemoteService) (s : ExplorerState)
    (t : ProcedureSummary) (ps : List (String × JStr)) :
    (executeProcedure env s t ps).2 =
      [Request.execute t.schema t.name (filterParameters ps)] := by
  cases h : env.execResp t.schema t.name (filterParameters ps) <;>
    simp [executeProcedure, h]

theorem executeProcedure_ok (env : RemoteService) (s : ExplorerState)
    (t : ProcedureSummary) (ps : List (String × JStr))
    (r : ProcedureExecutionResult)
    (h : env.execResp t.schema t.name (filterParameters ps) = .ok r) :
    (executeProcedure env s t ps).1.executionResult = some r ∧
    (executeProcedure env s t ps).1.executionError = none := by
  simp [executeProcedure, h]

theorem draftResolutionEffect_shape (s : ExplorerState) :
    ∃ pv, draftResolutionEffect s = { s with parameterValues := pv } := by
  unfold draftResolutionEffect
  split
  · exact ⟨[], rfl⟩
  · split
    · exact ⟨_, rfl⟩
    · split
      · exact ⟨[], rfl⟩
      · exact ⟨_, rfl⟩

theorem draftResolutionEffect_preserves (s : ExplorerState) :
    (draftResolutionEffect s).parameterDrafts = s.parameterDrafts ∧
    (draftResolutionEffect s).selectedKey = s.selectedKey ∧
    (draftResolutionEffect s).selectedSummary = s.selectedSummary ∧
    (draftResolutionEffect s).detailsCache = s.detailsCache ∧
    (draftResolutionEffect s).executionResult = s.executionResult ∧
    (draftResolutionEffect s).executionError = s.executionError ∧
    (draftResolutionEffect s).procedures = s.procedures := by
  obtain ⟨pv, hpv⟩ := draftResolutionEffect_shape s
  rw [hpv]
  simp

theorem draftResolutionEffect_stored (s : ExplorerState) (k : String)
    (dr : Draft) (hk : s.selectedKey = some k)
    (hd : List.lookup k s.parameterDrafts = some dr) :
    (draftResolutionEffect s).parameterValues = dr := by
  simp [draftResolutionEffect, hk, hd]

theorem draftResolutionEffect_seeded (s : ExplorerState) (k : String)
    (details : ProcedureDetails) (hk : s.selectedKey = some k)
    (hd : List.lookup k s.parameterDrafts = none)
    (hc : List.lookup k s.detailsCache = some details) :
    (draftResolutionEffect s).parameterValues =
      details.parameters.map (fun p => (p.short_name, JStr.str "")) := by
  simp [draftResolutionEffect, hk, hd, hc]

theorem draftResolutionEffect_empty (s : ExplorerState) (k : String)
    (hk : s.selectedKey = some k)
    (hd : List.lookup k s.parameterDrafts = none)
    (hc : List.lookup k s.detailsCache = none) :
    (draftResolutionEffect s).parameterValues = [] := by
  simp [draftResolutionEffect, hk, hd, hc]

theorem maybeAutoExecute_preserves (env : RemoteService) (s : ExplorerState)
    (t : ProcedureSummary) (resolved : Option ProcedureDetails) (a : Bool) :
    (maybeAutoExecute env s t resolved a).1.parameterDrafts =
        s.parameterDrafts ∧
    (maybeAutoExecute env s t resolved a).1.parameterValues =
        s.parameterValues ∧
    (maybeAutoExecute env s t resolved a).1.selectedKey = s.selectedKey ∧
    (maybeAutoExecute env s t resolved a).1.selectedSummary =
        s.selectedSummary ∧
    (maybeAutoExecute env s t resolved a).1.detailsCache = s.detailsCache ∧
    (maybeAutoExecute env s t resolved a).1.detailsError = s.detailsError ∧
    (maybeAutoExecute env s t resolved a).1.procedures = s.procedures := by
  cases resolved with
  | none => simp [maybeAutoExecute]
  | some details =>
      cases a with
      | false => simp [maybeAutoExecute]
      | true =>
          cases h : details.parameters.any (fun p => p.is_required) with
          | true => simp [maybeAutoExecute, h]
          | false =>
              simpa [maybeAutoExecute, h] using
                executeProcedure_preserves env s t []

theorem persistOutgoingDraft_some (s : ExplorerState) (u : ProcedureSummary)
    (k : String) (hsum : s.selectedSummary = some u)
    (hk : s.selectedKey = some k) :
    persistOutgoingDraft s =
      { s with parameterDrafts := upsert s.parameterDrafts k s.parameterValues } := by
  simp [persistOutgoingDraft, hsum, hk]

/-! ### handleSelect-level lemmas -/

theorem handleSelect_selection (env : RemoteService) (s : ExplorerState)
    (t : ProcedureSummary) (a : Bool) :
    (handleSelect env s t a).1.selectedKey =
        some (makeKey t.schema t.name) ∧
    (handleSelect env s t a).1.selectedSummary = some t := by
  obtain ⟨-, -, hk1, hs1, -, -, -⟩ :=
    maybeAutoExecute_preserves env
      (draftResolutionEffect
        (resolveDetails env (beginSelection (persistOutgoingDraft s) t) t).1)
      t (resolveDetails env (beginSelection (persistOutgoingDraft s) t) t).2.1 a
  obtain ⟨-, hk2, hs2, -, -, -, -⟩ :=
    draftResolutionEffect_preserves
      (resolveDetails env (beginSelection (persistOutgoingDraft s) t) t).1
  obtain ⟨-, -, hk3, hs3, -, -, -⟩ :=
    resolveDetails_preserves env (beginSelection (persistOutgoingDraft s) t) t
  refine ⟨?_, ?_⟩
  · show (maybeAutoExecute env
        (draftResolutionEffect
          (resolveDetails env (beginSelection (persistOutgoingDraft s) t) t).1)
        t (resolveDetails env (beginSelection (persistOutgoingDraft s) t) t).2.1
        a).1.selectedKey = some (makeKey t.schema t.name)
    rw [hk1, hk2, hk3]
    simp [beginSelection]
  · show (maybeAutoExecute env
        (draftResolutionEffect
          (resolveDetails env (beginSelection (persistOutgoingDraft s) t) t).1)
        t (resolveDetails env (beginSelection (persistOutgoingDraft s) t) t).2.1
        a).1.selectedSummary = some t
    rw [hs1, hs2, hs3]
    simp [beginSelection]

theorem handleSelect_parameterDrafts (env : RemoteService) (s : ExplorerState)
    (t : ProcedureSummary) (a : Bool) :
    (handleSelect env s t a).1.parameterDrafts =
      (persistOutgoingDraft s).parameterDrafts := by
  obtain ⟨hd1, -, -, -, -, -, -⟩ :=
    maybeAutoExecute_preserves env
      (draftResolutionEffect
        (resolveDetails env (beginSelection (persistOutgoingDraft s) t) t).1)
      t (resolveDetails env (beginSelection (persistOutgoingDraft s) t) t).2.1 a
  obtain ⟨hd2, -, -, -, -, -, -⟩ :=
    draftResolutionEffect_preserves
      (resolveDetails env (beginSelection (persistOutgoingDraft s) t) t).1
  obtain ⟨hd3, -, -, -, -, -, -⟩ :=
    resolveDetails_preserves env (beginSelection (persistOutgoingDraft s) t) t
  show (maybeAutoExecute env
      (draftResolutionEffect
        (resolveDetails env (beginSelection (persistOutgoingDraft s) t) t).1)
      t (resolveDetails env (beginSelection (persistOutgoingDraft s) t) t).2.1
      a).1.parameterDrafts = (persistOutgoingDraft s).parameterDrafts
  rw [hd1, hd2, hd3]
  simp [beginSelection]

theorem handleSelect_parameterValues_stored (env : RemoteService)
    (s : ExplorerState) (t : ProcedureSummary) (a : Bool) (dr : Draft)
    (hdr : List.lookup (makeKey t.schema t.name)
        (persistOutgoingDraft s).parameterDrafts = some dr) :
    (handleSelect env s t a).1.parameterValues = dr := by
  obtain ⟨-, hv1, -, -, -, -, -⟩ :=
    maybeAutoExecute_preserves env
      (draftResolutionEffect
        (resolveDetails env (beginSelection (persistOutgoingDraft s) t) t).1)
      t (resolveDetails env (beginSelection (persistOutgoingDraft s) t) t).2.1 a
  obtain ⟨hd3, -, hk3, -, -, -, -⟩ :=
    resolveDetails_preserves env (beginSelection (persistOutgoingDraft s) t) t
  have hk : (resolveDetails env (beginSelection (persistOutgoingDraft s) t)
      t).1.selectedKey = some (makeKey t.schema t.name) := by
    rw [hk3]
    simp [beginSelection]
  have hd : List.lookup (makeKey t.schema t.name)
      (resolveDetails env (beginSelection (persistOutgoingDraft s) t)
        t).1.parameterDrafts = some dr := by
    rw [hd3]
    simpa [beginSelection] using hdr
  have heff := draftResolutionEffect_stored _ _ dr hk hd
  show (maybeAutoExecute env
      (draftResolutionEffect
        (resolveDetails env (beginSelection (persistOutgoingDraft s) t) t).1)
      t (resolveDetails env (beginSelection (persistOutgoingDraft s) t) t).2.1
      a).1.parameterValues = dr
  rw [hv1, heff]

/-! ### Claim theorems -/

/-- Claim C3: after selecting A, typing value V for parameter P, selecting
B, and selecting A again, the active draft for A is restored verbatim (it
equals the draft as it was when leaving A) and still maps P to V. -/
theorem C3_draft_roundtrip (env : RemoteService) (s0 : ExplorerState)
    (A B : ProcedureSummary) (P V : String)
    (hkey : makeKey A.schema A.name ≠ makeKey B.schema B.name) :
    (handleSelect env
        (handleSelect env
          (handleParameterChange (handleSelect env s0 A false).1 P V)
          B false).1
        A false).1.parameterValues =
      (handleParameterChange (handleSelect env s0 A false).1 P
          V).parameterValues ∧
    List.lookup P
        (handleSelect env
            (handleSelect env
              (handleParameterChange (handleSelect env s0 A false).1 P V)
              B false).1
            A false).1.parameterValues = some (JStr.str V) := by
  set s1 := (handleSelect env s0 A false).1 with hs1
  set s2 := handleParameterChange s1 P V with hs2
  set s3 := (handleSelect env s2 B false).1 with hs3
  obtain ⟨hk1, hsum1⟩ := handleSelect_selection env s0 A false
  have hk2 : s2.selectedKey = some (makeKey A.schema A.name) := by
    rw [hs2]
    simpa [handleParameterChange] using hk1
  have hsum2 : s2.selectedSummary = some A := by
    rw [hs2]
    simpa [handleParameterChange] using hsum1
  have hd3 : s3.parameterDrafts =
      upsert s2.parameterDrafts (makeKey A.schema A.name)
        s2.parameterValues := by
    rw [hs3, handleSelect_parameterDrafts env s2 B false,
      persistOutgoingDraft_some s2 A (makeKey A.schema A.name) hsum2 hk2]
  obtain ⟨hk3, hsum3⟩ := handleSelect_selection env s2 B false
  have hk3s : s3.selectedKey = some (makeKey B.schema B.name) := hk3
  have hsum3s : s3.selectedSummary = some B := hsum3
  have hlook : List.lookup (makeKey A.schema A.name)
      (persistOutgoingDraft s3).parameterDrafts = some s2.parameterValues := by
    rw [persistOutgoingDraft_some s3 B (makeKey B.schema B.name) hsum3s hk3s]
    show List.lookup (makeKey A.schema A.name)
      (upsert s3.parameterDrafts (makeKey B.schema B.name)
        s3.parameterValues) = some s2.parameterValues
    rw [lookup_upsert_ne s3.parameterDrafts (makeKey B.schema B.name)
      (makeKey A.schema A.name) s3.parameterValues (fun hh => hkey hh),
      hd3, lookup_upsert_self]
  have hfin := handleSelect_parameterValues_stored env s3 A false
    s2.parameterValues hlook
  refine ⟨hfin, ?_⟩
  rw [hfin, hs2]
  show List.lookup P
    (upsert s1.parameterValues P (JStr.str V)) = some (JStr.str V)
  exact lookup_upsert_self s1.parameterValues P (JStr.str V)

/-- Closed witness for C3 at a concrete scenario. -/
theorem C3_draft_roundtrip_witness :
    makeKey sumA.schema sumA.name ≠ makeKey sumB.schema sumB.name ∧
    ((handleSelect envDemo
        (handleSelect envDemo
          (handleParameterChange (handleSelect envDemo initialState sumA false).1
            "City" "Berlin")
          sumB false).1
        sumA false).1.parameterValues =
      (handleParameterChange (handleSelect envDemo initialState sumA false).1
          "City" "Berlin").parameterValues ∧
    List.lookup "City"
        (handleSelect envDemo
            (handleSelect envDemo
              (handleParameterChange
                (handleSelect envDemo initialState sumA false).1 "City" "Berlin")
              sumB false).1
            sumA false).1.parameterValues = some (JStr.str "Berlin")) :=
  ⟨by decide, C3_draft_roundtrip envDemo initialState sumA sumB "City" "Berlin"
    (by decide)⟩

/-- Claim C4: after a successful catalog load, the procedure list begins
with the synthetic quick-start entry, that entry is flagged as having no
parameters, and it is the only entry whose identity key equals the
sentinel, regardless of whether the server response contained one. -/
theorem C4_catalog_sentinel (env : RemoteService) (s : ExplorerState)
    (fetched : List ProcedureSummary)
    (h : env.listResp = Except.ok fetched) :
    (fetchProcedures env s).1.procedures.head? =
        some QUICK_START_PROCEDURE ∧
    QUICK_START_PROCEDURE.has_parameters = false ∧
    ((fetchProcedures env s).1.procedures.countP
      (fun p => makeKey p.schema p.name == QUICK_START_KEY)) = 1 := by
  have hp : (fetchProcedures env s).1.procedures =
      QUICK_START_PROCEDURE ::
        fetched.filter
          (fun p => !(makeKey p.schema p.name == QUICK_START_KEY)) := by
    simp [fetchProcedures, h]
  refine ⟨by rw [hp]; rfl, rfl, ?_⟩
  rw [hp, List.countP_cons_of_pos]
  · have hz : (fetched.filter
        (fun p => !(makeKey p.schema p.name == QUICK_START_KEY))).countP
          (fun p => makeKey p.schema p.name == QUICK_START_KEY) = 0 := by
      rw [List.countP_eq_zero]
      intro a ha
      have hfa := (List.mem_filter.mp ha).2
      simpa using hfa
    rw [hz]
  · decide

/-- A server catalog answer that itself contains the sentinel identity. -/
def envListClash : RemoteService :=
  { listResp := Except.ok
      [{ schema := "sys"
         name := "sp_help"
         has_parameters := true
         created_at := none
         updated_at := none
         definition_snippet := some "server-provided copy" }, sumA]
    detailResp := fun _ _ => Except.error "unused"
    execResp := fun _ _ _ => Except.error "unused" }

/-- Closed witness for C4 at a server response already containing the
sentinel identity. -/
theorem C4_catalog_sentinel_witness :
    envListClash.listResp = Except.ok
      [{ schema := "sys"
         name := "sp_help"
         has_parameters := true
         created_at := none
         updated_at := none
         definition_snippet := some "server-provided copy" }, sumA] ∧
    ((fetchProcedures envListClash initialState).1.procedures.head? =
        some QUICK_START_PROCEDURE ∧
     QUICK_START_PROCEDURE.has_parameters = false ∧
     ((fetchProcedures envListClash initialState).1.procedures.countP
       (fun p => makeKey p.schema p.name == QUICK_START_KEY)) = 1) :=
  ⟨rfl, C4_catalog_sentinel envListClash initialState _ rfl⟩

/-- Claim C2: the transmitted parameter record contains exactly the entries
of the input whose value is neither undefined nor null nor the empty
string; in particular, for an input mapping a to the empty string and b to
"5", the transmitted record maps b to "5" and has no entry for a. -/
theorem C2_optional_omission (env : RemoteService) (s : ExplorerState)
    (t : ProcedureSummary) (params : List (String × JStr)) (k : String)
    (v : JStr) :
    ((k, v) ∈ transmittedParameters (executeProcedure env s t params).2 ↔
      (k, v) ∈ params ∧ v ≠ JStr.undef ∧ v ≠ JStr.null ∧ v ≠ JStr.str "") ∧
    (executeProcedure env s t [("a", JStr.str ""), ("b", JStr.str "5")]).2 =
      [Request.execute t.schema t.name [("b", JStr.str "5")]] := by
  constructor
  · rw [executeProcedure_trace]
    have ht : transmittedParameters
        [Request.execute t.schema t.name (filterParameters params)] =
          filterParameters params := by
      simp [transmittedParameters]
    rw [ht]
    unfold filterParameters
    rw [List.mem_filter]
    constructor
    · rintro ⟨hmem, hv⟩
      refine ⟨hmem, ?_, ?_, ?_⟩ <;>
        · rintro rfl
          simp [JStr.isEmptyish] at hv
    · rintro ⟨hmem, h1, h2, h3⟩
      refine ⟨hmem, ?_⟩
      cases v with
      | undef => exact absurd rfl h1
      | null => exact absurd rfl h2
      | str sv =>
          simp only [JStr.isEmptyish, Bool.not_eq_true']
          simp only [beq_eq_false_iff_ne, ne_eq]
          intro hh
          exact h3 (by rw [hh])
  · rw [executeProcedure_trace]
    have hfp : filterParameters [("a", JStr.str ""), ("b", JStr.str "5")] =
        [("b", JStr.str "5")] := by decide
    rw [hfp]

/-- Shared evaluation of the submit handler on a draft missing some
required value: the validation message is recorded, the displayed result
is cleared, and nothing else happens. -/
theorem handleExecute_validation (env : RemoteService) (s : ExplorerState)
    (t : ProcedureSummary) (details : ProcedureDetails)
    (p : ProcedureParameter) (hsum : s.selectedSummary = some t)
    (hdet : selectedDetails s = some details) (hp : p ∈ details.parameters)
    (hreq : p.is_required = true)
    (hmiss : missingValue (List.lookup p.short_name s.parameterValues) =
      true) :
    handleExecute env s =
      ({ s with executionError := some validationMessage,
                executionResult := none }, []) := by
  have hmr : (details.parameters.any (fun q =>
      q.is_required &&
        missingValue (List.lookup q.short_name s.parameterValues))) =
        true := by
    rw [List.any_eq_true]
    exact ⟨p, hp, by rw [hreq, hmiss]; rfl⟩
  simp [handleExecute, hsum, hdet, hmr]

/-- Claim C1: with a displayed detail having a required parameter whose
draft value is missing, submitting the form records the validation error
and issues no network request at all. -/
theorem C1_required_gate (env : RemoteService) (s : ExplorerState)
    (t : ProcedureSummary) (details : ProcedureDetails)
    (p : ProcedureParameter) (hsum : s.selectedSummary = some t)
    (hdet : selectedDetails s = some details) (hp : p ∈ details.parameters)
    (hreq : p.is_required = true)
    (hmiss : missingValue (List.lookup p.short_name s.parameterValues) =
      true) :
    (handleExecute env s).1.executionError = some validationMessage ∧
    (handleExecute env s).2 = [] := by
  rw [handleExecute_validation env s t details p hsum hdet hp hreq hmiss]
  exact ⟨rfl, rfl⟩

/-- A state with procedure B selected, its detail cached, and an empty
active draft: the required parameter Id has no value. -/
def stMissing : ExplorerState :=
  { initialState with
      selectedSummary := some sumB
      selectedKey := some (makeKey sumB.schema sumB.name)
      detailsCache := [(makeKey sumB.schema sumB.name, detB)] }

/-- Closed witness for C1 at the concrete missing-required state. -/
theorem C1_required_gate_witness :
    stMissing.selectedSummary = some sumB ∧
    selectedDetails stMissing = some detB ∧
    paramId ∈ detB.parameters ∧
    paramId.is_required = true ∧
    missingValue
      (List.lookup paramId.short_name stMissing.parameterValues) = true ∧
    ((handleExecute envDemo stMissing).1.executionError =
        some validationMessage ∧
     (handleExecute envDemo stMissing).2 = []) :=
  ⟨rfl, by decide, by decide, rfl, rfl,
    C1_required_gate envDemo stMissing sumB detB paramId rfl (by decide)
      (by decide) rfl rfl⟩

/-- The missing-required state of `stMissing`, but with a previously
displayed execution result still on screen. -/
def stPrevResult : ExplorerState :=
  { stMissing with executionResult := some (resDemo "dbo" "ProcB" []) }

/-- Counterexample to claim C7 as stated: at a concrete validation-failing
submit, the previously displayed execution result is NOT left untouched —
the handler clears it (while recording the validation error and issuing no
request). -/
theorem C7_counterexample :
    stPrevResult.executionResult = some (resDemo "dbo" "ProcB" []) ∧
    (handleExecute envDemo stPrevResult).2 = [] ∧
    (handleExecute envDemo stPrevResult).1.executionError =
      some validationMessage ∧
    (handleExecute envDemo stPrevResult).1.executionResult = none := by
  refine ⟨rfl, ?_, ?_, ?_⟩ <;> decide

/-- Claim C7 (amended): a failed required-parameter validation is detected
synchronously, issues no network request, and leaves all prior state
untouched except that the validation error is displayed and any previously
displayed execution result is cleared. -/
theorem C7_validation_shortcircuit (env : RemoteService)
    (s : ExplorerState) (t : ProcedureSummary)
    (details : ProcedureDetails) (p : ProcedureParameter)
    (hsum : s.selectedSummary = some t)
    (hdet : selectedDetails s = some details) (hp : p ∈ details.parameters)
    (hreq : p.is_required = true)
    (hmiss : missingValue (List.lookup p.short_name s.parameterValues) =
      true) :
    (handleExecute env s).2 = [] ∧
    (handleExecute env s).1.executionError = some validationMessage ∧
    (handleExecute env s).1.executionResult = none ∧
    (handleExecute env s).1.parameterValues = s.parameterValues ∧
    (handleExecute env s).1.parameterDrafts = s.parameterDrafts ∧
    (handleExecute env s).1.detailsCache = s.detailsCache ∧
    (handleExecute env s).1.detailsError = s.detailsError ∧
    (handleExecute env s).1.selectedKey = s.selectedKey ∧
    (handleExecute env s).1.selectedSummary = s.selectedSummary ∧
    (handleExecute env s).1.procedures = s.procedures ∧
    (handleExecute env s).1.isExecuting = s.isExecuting ∧
    (handleExecute env s).1.searchTerm = s.searchTerm ∧
    (handleExecute env s).1.listError = s.listError ∧
    (handleExecute env s).1.isLoadingList = s.isLoadingList ∧
    (handleExecute env s).1.detailsLoading = s.detailsLoading := by
  rw [handleExecute_validation env s t details p hsum hdet hp hreq hmiss]
  exact ⟨rfl, rfl, rfl, rfl, rfl, rfl, rfl, rfl, rfl, rfl, rfl, rfl, rfl,
    rfl, rfl⟩

/-- Closed witness for the amended C7 at the concrete state carrying a
previous execution result. -/
theorem C7_validation_shortcircuit_witness :
    stPrevResult.selectedSummary = some sumB ∧
    selectedDetails stPrevResult = some detB ∧
    paramId ∈ detB.parameters ∧
    paramId.is_required = true ∧
    missingValue
      (List.lookup paramId.short_name stPrevResult.parameterValues) = true ∧
    ((handleExecute envDemo stPrevResult).2 = [] ∧
     (handleExecute envDemo stPrevResult).1.executionError =
        some validationMessage ∧
     (handleExecute envDemo stPrevResult).1.executionResult = none ∧
     (handleExecute envDemo stPrevResult).1.parameterValues =
        stPrevResult.parameterValues ∧
     (handleExecute envDemo stPrevResult).1.parameterDrafts =
        stPrevResult.parameterDrafts ∧
     (handleExecute envDemo stPrevResult).1.detailsCache =
        stPrevResult.detailsCache ∧
     (handleExecute envDemo stPrevResult).1.detailsError =
        stPrevResult.detailsError ∧
     (handleExecute envDemo stPrevResult).1.selectedKey =
        stPrevResult.selectedKey ∧
     (handleExecute envDemo stPrevResult).1.selectedSummary =
        stPrevResult.selectedSummary ∧
     (handleExecute envDemo stPrevResult).1.procedures =
        stPrevResult.procedures ∧
     (handleExecute envDemo stPrevResult).1.isExecuting =
        stPrevResult.isExecuting ∧
     (handleExecute envDemo stPrevResult).1.searchTerm =
        stPrevResult.searchTerm ∧
     (handleExecute envDemo stPrevResult).1.listError =
        stPrevResult.listError ∧
     (handleExecute envDemo stPrevResult).1.isLoadingList =
        stPrevResult.isLoadingList ∧
     (handleExecute envDemo stPrevResult).1.detailsLoading =
        stPrevResult.detailsLoading) :=
  ⟨rfl, by decide, by decide, rfl, rfl,
    C7_validation_shortcircuit envDemo stPrevResult sumB detB paramId rfl
      (by decide) (by decide) rfl rfl⟩

/-- A state with procedure A selected, its detail cached, and no stored
draft for it. -/
def stSeed : ExplorerState :=
  { initialState with
      selectedSummary := some sumA
      selectedKey := some (makeKey sumA.schema sumA.name)
      detailsCache := [(makeKey sumA.schema sumA.name, detA)] }

/-- Counterexample to claim C8 as stated: at a concrete state with a
cached detail and no stored draft, the draft-resolution effect makes the
synthesized all-empty draft active but does NOT store it in the draft
store (the store still has no entry for the identity). -/
theorem C8_counterexample :
    (draftResolutionEffect stSeed).parameterValues =
      [("City", JStr.str "")] ∧
    List.lookup (makeKey sumA.schema sumA.name)
      (draftResolutionEffect stSeed).parameterDrafts = none := by
  refine ⟨?_, ?_⟩ <;> decide

/-- Claim C8 (amended): draft resolution returns the stored draft when one
is present; otherwise, with a cached detail, it synthesizes a fresh draft
mapping every declared parameter short-name to the empty string and makes
it active; otherwise it makes the empty draft active. In every case the
draft store itself is left unchanged (the active draft is persisted only
when navigating away). -/
theorem C8_draft_resolution (s : ExplorerState) (k : String)
    (hk : s.selectedKey = some k) :
    (draftResolutionEffect s).parameterDrafts = s.parameterDrafts ∧
    (∀ dr, List.lookup k s.parameterDrafts = some dr →
      (draftResolutionEffect s).parameterValues = dr) ∧
    (List.lookup k s.parameterDrafts = none →
      ((∀ d, List.lookup k s.detailsCache = some d →
          (draftResolutionEffect s).parameterValues =
            d.parameters.map (fun p => (p.short_name, JStr.str ""))) ∧
       (List.lookup k s.detailsCache = none →
          (draftResolutionEffect s).parameterValues = []))) := by
  refine ⟨(draftResolutionEffect_preserves s).1, ?_, ?_⟩
  · intro dr hdr
    exact draftResolutionEffect_stored s k dr hk hdr
  · intro hnone
    exact ⟨fun d hd => draftResolutionEffect_seeded s k d hk hnone hd,
           fun hnc => draftResolutionEffect_empty s k hk hnone hnc⟩

/-- Closed witness for the amended C8 at the concrete seeded state. -/
theorem C8_draft_resolution_witness :
    stSeed.selectedKey = some (makeKey sumA.schema sumA.name) ∧
    List.lookup (makeKey sumA.schema sumA.name) stSeed.parameterDrafts =
      none ∧
    List.lookup (makeKey sumA.schema sumA.name) stSeed.detailsCache =
      some detA ∧
    (draftResolutionEffect stSeed).parameterDrafts =
      stSeed.parameterDrafts ∧
    (draftResolutionEffect stSeed).parameterValues =
      detA.parameters.map (fun p => (p.short_name, JStr.str "")) :=
  ⟨rfl, by decide, by decide,
    (C8_draft_resolution stSeed (makeKey sumA.schema sumA.name) rfl).1,
    ((C8_draft_resolution stSeed (makeKey sumA.schema sumA.name) rfl).2.2
        (by decide)).1 detA (by decide)⟩

/-- Modelled from the claim wording, for comparison with the source filter:
a summary matches when the lowercase query (with no trimming) is a
substring of the lowercase identifier or of the lowercase excerpt. -/
def claimSummaryMatches (query : String) (p : ProcedureSummary) : Bool :=
  summaryMatches (strToLower query) p

/-- Claim C9 exactly as stated, as a proposition over the source filter. -/
def C9_claimStatement : Prop :=
  ∀ (procs : List ProcedureSummary) (q : String) (p : ProcedureSummary),
    p ∈ filteredProcedures procs q ↔
      p ∈ procs ∧ claimSummaryMatches q p = true

/-- Counterexample to claim C9 as stated: the source trims the query
before matching, so the query " a " keeps the summary dbo.ProcA even
though " a " (lowercased, untrimmed) is not a substring of its identifier
or excerpt. -/
theorem C9_counterexample : ¬ C9_claimStatement := by
  intro hcl
  have h := (hcl [sumA] " a " sumA).mp (by decide)
  exact absurd h.2 (by decide)

/-- Claim C9 (amended): a summary passes the filter exactly when the
trimmed lowercase query is a substring of the lowercase identifier or of
the lowercase excerpt; the empty query returns the catalog unchanged in
order. -/
theorem C9_filter_characterization (procs : List ProcedureSummary)
    (q : String) (p : ProcedureSummary) :
    (p ∈ filteredProcedures procs q ↔
      p ∈ procs ∧
        (((strToLower (strTrim q)).toList <:+:
            (strToLower (p.schema ++ "." ++ p.name)).toList) ∨
         ((strToLower (strTrim q)).toList <:+: (snippetLower p).toList))) ∧
    filteredProcedures procs "" = procs := by
  constructor
  · by_cases hq : strToLower (strTrim q) = ""
    · have hbq : (strToLower (strTrim q) == "") = true := by simp [hq]
      have hnil : (strToLower (strTrim q)).toList = [] := by rw [hq]; rfl
      simp only [filteredProcedures, hbq, if_true, hnil]
      constructor
      · intro hp
        exact ⟨hp, Or.inl List.nil_infix⟩
      · intro hp
        exact hp.1
    · have hbq : (strToLower (strTrim q) == "") = false := by
        simpa [beq_eq_false_iff_ne]
      simp only [filteredProcedures, hbq, Bool.false_eq_true, if_false]
      rw [List.mem_filter]
      constructor
      · rintro ⟨hmem, hm⟩
        refine ⟨hmem, ?_⟩
        have hm2 := hm
        simp only [summaryMatches, Bool.or_eq_true, decide_eq_true_eq]
          at hm2
        exact hm2
      · rintro ⟨hmem, hm⟩
        refine ⟨hmem, ?_⟩
        simp only [summaryMatches, Bool.or_eq_true, decide_eq_true_eq]
        exact hm
  · have hbq : (strToLower (strTrim "") == "") = true := by decide
    simp only [filteredProcedures, hbq, if_true]

/-- Claim C5: a cached detail is returned as-is with no network request;
a successful resolution caches its detail so an immediately repeated
resolution issues no further request and yields the same detail (hence at
most one request across the two); a failed fetch stores nothing, so the
next resolution for the identity goes to the network again. -/
theorem C5_detail_cache (env : RemoteService) (s : ExplorerState)
    (t : ProcedureSummary) (d : ProcedureDetails) (msg : String) :
    (List.lookup (makeKey t.schema t.name) s.detailsCache = some d →
        resolveDetails env s t = (s, some d, [])) ∧
    (∀ s2 d2 reqs, resolveDetails env s t = (s2, some d2, reqs) →
        resolveDetails env s2 t = (s2, some d2, []) ∧ reqs.length ≤ 1) ∧
    (env.detailResp t.schema t.name = Except.error msg →
      List.lookup (makeKey t.schema t.name) s.detailsCache = none →
        (resolveDetails env s t).1.detailsCache = s.detailsCache ∧
        (resolveDetails env (resolveDetails env s t).1 t).2.2 =
          [Request.detail t.schema t.name]) := by
  refine ⟨?_, ?_, ?_⟩
  · intro hhit
    exact resolveDetails_hit env s t d hhit
  · intro s2 d2 reqs heq
    have h1 : (resolveDetails env s t).1 = s2 := by rw [heq]
    have h2 : (resolveDetails env s t).2.1 = some d2 := by rw [heq]
    have h3 : (resolveDetails env s t).2.2 = reqs := by rw [heq]
    have hc : List.lookup (makeKey t.schema t.name) s2.detailsCache =
        some d2 := by
      rw [← h1]
      exact resolveDetails_cache_of_ok env s t d2 h2
    refine ⟨resolveDetails_hit env s2 t d2 hc, ?_⟩
    rcases resolveDetails_trace env s t with htr | htr <;>
      · rw [htr] at h3
        rw [← h3]
        simp
  · intro herr hnone
    have hmiss := resolveDetails_miss env s t hnone
    obtain ⟨hca, -, -, -⟩ := fetchProcedureDetails_err env s t msg herr
    have hcache : (resolveDetails env s t).1.detailsCache =
        s.detailsCache := by
      rw [hmiss, hca]
    refine ⟨hcache, ?_⟩
    have hnone2 : List.lookup (makeKey t.schema t.name)
        (resolveDetails env s t).1.detailsCache = none := by
      rw [hcache]
      exact hnone
    rw [resolveDetails_miss env (resolveDetails env s t).1 t hnone2]
    obtain ⟨-, -, -, htr⟩ :=
      fetchProcedureDetails_err env (resolveDetails env s t).1 t msg herr
    exact htr

/-- A state whose cache already holds the detail of procedure A. -/
def stCachedA : ExplorerState :=
  { initialState with
      detailsCache := [(makeKey sumA.schema sumA.name, detA)] }

/-- Closed witness for C5: a concrete cache hit, a concrete two-step
resolution of the same identity with a single request, and a concrete
failure that caches nothing and retries. -/
theorem C5_detail_cache_witness :
    List.lookup (makeKey sumB.schema sumB.name) stMissing.detailsCache =
      some detB ∧
    resolveDetails envDemo stMissing sumB = (stMissing, some detB, []) ∧
    (resolveDetails envDemo initialState sumA =
        (stCachedA, some detA, [Request.detail "dbo" "ProcA"]) ∧
     (resolveDetails envDemo stCachedA sumA = (stCachedA, some detA, []) ∧
      [Request.detail "dbo" "ProcA"].length ≤ 1)) ∧
    (envDown.detailResp sumB.schema sumB.name =
        Except.error "detail unavailable" ∧
     List.lookup (makeKey sumB.schema sumB.name)
        initialState.detailsCache = none ∧
     ((resolveDetails envDown initialState sumB).1.detailsCache =
        initialState.detailsCache ∧
      (resolveDetails envDown
          (resolveDetails envDown initialState sumB).1 sumB).2.2 =
        [Request.detail sumB.schema sumB.name])) :=
  ⟨by decide,
   (C5_detail_cache envDemo stMissing sumB detB "x").1 (by decide),
   ⟨by decide,
    (C5_detail_cache envDemo initialState sumA detA "x").2.1 stCachedA detA
      [Request.detail "dbo" "ProcA"] (by decide)⟩,
   ⟨rfl, rfl,
    (C5_detail_cache envDown initialState sumB detB
        "detail unavailable").2.2 rfl rfl⟩⟩

theorem maybeAutoExecute_required (env : RemoteService) (s : ExplorerState)
    (t : ProcedureSummary) (details : ProcedureDetails)
    (h : details.parameters.any (fun p => p.is_required) = true) :
    maybeAutoExecute env s t (some details) true = (s, []) := by
  simp [maybeAutoExecute, h]

theorem maybeAutoExecute_run (env : RemoteService) (s : ExplorerState)
    (t : ProcedureSummary) (details : ProcedureDetails)
    (h : details.parameters.any (fun p => p.is_required) = false) :
    maybeAutoExecute env s t (some details) true =
      executeProcedure env s t [] := by
  simp [maybeAutoExecute, h]

/-- Claim C6: when a selection with autoExecute resolves its detail, a
detail with some required parameter triggers no execution (no execute
request is issued and no result appears), while a detail with no required
parameter immediately executes with the empty parameter record; with a
successful execution response the result is populated without any form
submission. -/
theorem C6_autoexecute (env : RemoteService) (s : ExplorerState)
    (t : ProcedureSummary) (details : ProcedureDetails)
    (r : ProcedureExecutionResult)
    (hres : (resolveDetails env
        (beginSelection (persistOutgoingDraft s) t) t).2.1 = some details) :
    (details.parameters.any (fun p => p.is_required) = true →
        (handleSelect env s t true).2.filter Request.isExec = [] ∧
        (handleSelect env s t true).1.executionResult = none) ∧
    (details.parameters.any (fun p => p.is_required) = false →
      env.execResp t.schema t.name [] = Except.ok r →
        Request.execute t.schema t.name [] ∈
            (handleSelect env s t true).2 ∧
        (handleSelect env s t true).1.executionResult = some r) := by
  have hfst : (handleSelect env s t true).1 =
      (maybeAutoExecute env
        (draftResolutionEffect
          (resolveDetails env (beginSelection (persistOutgoingDraft s) t)
            t).1)
        t
        (resolveDetails env (beginSelection (persistOutgoingDraft s) t)
          t).2.1 true).1 := rfl
  have hsnd : (handleSelect env s t true).2 =
      (resolveDetails env (beginSelection (persistOutgoingDraft s) t)
        t).2.2 ++
        (maybeAutoExecute env
          (draftResolutionEffect
            (resolveDetails env (beginSelection (persistOutgoingDraft s) t)
              t).1)
          t
          (resolveDetails env (beginSelection (persistOutgoingDraft s) t)
            t).2.1 true).2 := rfl
  rw [hres] at hfst hsnd
  constructor
  · intro hany
    rw [maybeAutoExecute_required env _ t details hany] at hfst hsnd
    constructor
    · rw [hsnd]
      rcases resolveDetails_trace env
          (beginSelection (persistOutgoingDraft s) t) t with htr | htr <;>
        rw [htr] <;> rfl
    · rw [hfst]
      have he1 := (draftResolutionEffect_preserves
        (resolveDetails env (beginSelection (persistOutgoingDraft s) t)
          t).1).2.2.2.2.1
      have he2 := (resolveDetails_preserves env
        (beginSelection (persistOutgoingDraft s) t) t).2.2.2.2.1
      show (draftResolutionEffect
        (resolveDetails env (beginSelection (persistOutgoingDraft s) t)
          t).1).executionResult = none
      rw [he1, he2]
      simp [beginSelection]
  · intro hany hok
    rw [maybeAutoExecute_run env _ t details hany] at hfst hsnd
    constructor
    · rw [hsnd, executeProcedure_trace]
      exact List.mem_append.mpr (Or.inr (List.mem_singleton.mpr rfl))
    · rw [hfst]
      exact (executeProcedure_ok env _ t [] r hok).1

/-- Closed witness for C6: the quick-start selection with autoExecute set
yields a populated execution result with no form submission. -/
theorem C6_autoexecute_witness :
    (resolveDetails envDemo
        (beginSelection (persistOutgoingDraft initialState)
          QUICK_START_PROCEDURE) QUICK_START_PROCEDURE).2.1 =
      some detQuick ∧
    detQuick.parameters.any (fun p => p.is_required) = false ∧
    envDemo.execResp QUICK_START_PROCEDURE.schema
        QUICK_START_PROCEDURE.name [] =
      Except.ok (resDemo "sys" "sp_help" []) ∧
    (Request.execute QUICK_START_PROCEDURE.schema
        QUICK_START_PROCEDURE.name [] ∈
          (handleSelect envDemo initialState QUICK_START_PROCEDURE
            true).2 ∧
     (handleSelect envDemo initialState QUICK_START_PROCEDURE
        true).1.executionResult = some (resDemo "sys" "sp_help" [])) :=
  ⟨by decide, rfl, rfl,
   (C6_autoexecute envDemo initialState QUICK_START_PROCEDURE detQuick
      (resDemo "sys" "sp_help" []) (by decide)).2 rfl rfl⟩

theorem selectedDetails_eq (s : ExplorerState) (k : String)
    (h : s.selectedKey = some k) :
    selectedDetails s = List.lookup k s.detailsCache := by
  simp [selectedDetails, h]

/-- Claim C10: the displayed detail is the cache entry under the currently
selected key (the source derives it exactly that way), so a detail
response for a different identity is written only under its own key and
never changes the displayed detail of the current selection. -/
theorem C10_stale_detail_isolated (env : RemoteService) (s : ExplorerState)
    (t : ProcedureSummary) (k : String)
    (hk : k ≠ makeKey t.schema t.name) :
    List.lookup k (fetchProcedureDetails env s t).1.detailsCache =
      List.lookup k s.detailsCache ∧
    (s.selectedKey = some k →
      selectedDetails (fetchProcedureDetails env s t).1 =
        selectedDetails s) := by
  have hcache : List.lookup k
      (fetchProcedureDetails env s t).1.detailsCache =
        List.lookup k s.detailsCache := by
    cases hr : env.detailResp t.schema t.name with
    | ok parsed =>
        obtain ⟨hca, -, -⟩ := fetchProcedureDetails_ok env s t parsed hr
        rw [hca]
        exact lookup_upsert_ne s.detailsCache (makeKey t.schema t.name) k
          parsed hk
    | error msg =>
        obtain ⟨hca, -, -, -⟩ := fetchProcedureDetails_err env s t msg hr
        rw [hca]
  refine ⟨hcache, ?_⟩
  intro hsel
  have hk2 : (fetchProcedureDetails env s t).1.selectedKey = some k := by
    rw [(fetchProcedureDetails_preserves env s t).2.2.1, hsel]
  rw [selectedDetails_eq _ k hk2, selectedDetails_eq s k hsel, hcache]

/-- Closed witness for C10: a late detail response for procedure A does
not change the displayed detail while procedure B is selected. -/
theorem C10_stale_detail_isolated_witness :
    makeKey sumB.schema sumB.name ≠ makeKey sumA.schema sumA.name ∧
    stMissing.selectedKey = some (makeKey sumB.schema sumB.name) ∧
    List.lookup (makeKey sumB.schema sumB.name)
        (fetchProcedureDetails envDemo stMissing sumA).1.detailsCache =
      List.lookup (makeKey sumB.schema sumB.name) stMissing.detailsCache ∧
    selectedDetails (fetchProcedureDetails envDemo stMissing sumA).1 =
      selectedDetails stMissing :=
  ⟨by decide, rfl,
   (C10_stale_detail_isolated envDemo stMissing sumA
      (makeKey sumB.schema sumB.name) (by decide)).1,
   (C10_stale_detail_isolated envDemo stMissing sumA
      (makeKey sumB.schema sumB.name) (by decide)).2 rfl⟩
